import Mathlib

/-!
Shallow embedding of the per-connection messaging core of `src/conn.go`
(package neffos).  Pure data is modelled directly; the stateful methods of
`Conn` become explicit state-passing functions returning the new connection
state together with a trace of observable effects (event firings, socket
writes, dispatches).  Collaborator types that live outside `src/` (the
`Message` wire structure, event-name constants, the readiness latch result)
are modelled from the spec where noted.
-/

namespace NeffosModel

/-- Modelled from the spec: the event-name constant for namespace connect
(declared outside `src/`, in the message/namespace files of the repository).
Only its distinctness from ordinary user events matters here. -/
def OnNamespaceConnect : String := "_OnNamespaceConnect"

/-- Modelled from the spec: event-name constant for namespace disconnect. -/
def OnNamespaceDisconnect : String := "_OnNamespaceDisconnect"

/-- Modelled from the spec: event-name constant for room join. -/
def OnRoomJoin : String := "_OnRoomJoin"

/-- Modelled from the spec: event-name constant for room leave. -/
def OnRoomLeave : String := "_OnRoomLeave"

/-- Modelled from the spec: the `Message` value as the core observes it
(§4.3 of the spec lists the fields; the wire codec itself is external).
`Err` is an optional error text. -/
structure Message where
  Namespace : String := ""
  Event : String := ""
  Room : String := ""
  Body : List Char := []
  wait : String := ""
  IsLocal : Bool := false
  IsForced : Bool := false
  IsNative : Bool := false
  isNoOp : Bool := false
  isInvalid : Bool := false
  Err : Option String := none
  FromExplicit : String := ""
  SetBinary : Bool := false
  locked : Bool := false
  deriving DecidableEq, Repr

/-- Modelled from the spec: `Message.isConnect` (message.go is outside
`src/`): the message is a namespace-connect message. -/
def Message.isConnect (m : Message) : Bool :=
  m.Event == OnNamespaceConnect

/-- Modelled from the spec: `Message.isDisconnect`. -/
def Message.isDisconnect (m : Message) : Bool :=
  m.Event == OnNamespaceDisconnect

/-- Modelled from the spec: `Message.isRoomJoin`. -/
def Message.isRoomJoin (m : Message) : Bool :=
  m.Event == OnRoomJoin

/-- Modelled from the spec: `Message.isRoomLeft`. -/
def Message.isRoomLeft (m : Message) : Bool :=
  m.Event == OnRoomLeave

/-- The state of a `Conn` (src/conn.go, struct `Conn`), restricted to the
fields the verified claims touch.  `isClientB` models `server == nil`
(`Conn.IsClient`).  `connectedNamespaces` maps a namespace name to the list
of joined room names (the `NSConn.rooms` keys); `waitingMessages` keeps only
the registered wait-token keys (the channel values are modelled by the
transition system `AskSys` below). -/
structure Conn where
  id : String := ""
  serverConnID : String := ""
  isClientB : Bool := true
  acknowledged : Bool := false
  connectedNamespaces : List (String × List String) := []
  waitingMessages : List String := []
  queue : List (List Char) := []
  shouldHandleOnlyNativeMessages : Bool := false
  closed : Bool := false
  deriving DecidableEq, Repr

/-- `Conn.IsClient` (src/conn.go line 157): `c.server == nil`. -/
def Conn.IsClient (c : Conn) : Bool := c.isClientB

/-- `Conn.IsClosed` (src/conn.go line 905): the close flag is set. -/
def Conn.IsClosed (c : Conn) : Bool := c.closed

/-- `Conn.isAcknowledged` (src/conn.go line 176). -/
def Conn.isAcknowledged (c : Conn) : Bool := c.acknowledged

/-- `Conn.Is` (src/conn.go lines 125-135): an empty `connID` never matches;
clients compare against `id`, servers against `serverConnID`. -/
def Conn.Is (c : Conn) (connID : String) : Bool :=
  if connID = "" then false
  else if c.IsClient then c.id == connID
  else c.serverConnID == connID

/-- Lookup of `c.connectedNamespaces[namespace]` (a Go map read). -/
def nsLookup (l : List (String × List String)) (ns : String) :
    Option (List String) :=
  (l.find? (fun p => p.1 == ns)).map Prod.snd

/-- The namespace/room gate of `Conn.canWrite` (src/conn.go lines 734-765):
for non-connect, non-disconnect messages the addressed namespace must be in
the NS-table, and a set room (for non-join/leave events) must be joined.
The `msg.locked` flag only controls mutex re-acquisition in the source and
has no effect on the boolean outcome. -/
def Conn.nsRoomGate (c : Conn) (msg : Message) : Bool :=
  if !msg.isConnect && !msg.isDisconnect then
    match nsLookup c.connectedNamespaces msg.Namespace with
    | none => false
    | some rooms =>
      if msg.Room != "" && !msg.isRoomJoin && !msg.isRoomLeft then
        rooms.contains msg.Room
      else true
  else true

/-- `Conn.canWrite` (src/conn.go lines 724-783).  The server-side
`readiness.unwait(nil)` call is a latch side effect with no bearing on the
result.  The final gate is the self-exclusion check `c.Is(msg.FromExplicit)`. -/
def Conn.canWrite (c : Conn) (msg : Message) : Bool :=
  if c.IsClosed then false
  else if !c.nsRoomGate msg then false
  else if c.Is msg.FromExplicit then false
  else true

/-- `Conn.Write` (src/conn.go lines 788-796): gate through `canWrite`; on
success clear `FromExplicit`, serialize, and write.  The first component is
the reported boolean (`writeOk` models the socket-level success of
`c.write`); the second is the exact `Message` value handed to
`serializeMessage` (`none` when nothing is written). -/
def Conn.Write (c : Conn) (msg : Message) (writeOk : Bool) :
    Bool × Option Message :=
  if c.canWrite msg then (writeOk, some { msg with FromExplicit := "" })
  else (false, none)

/-- One second, in nanoseconds (Go `time.Second`), the unit of all the
duration constants in src/conn.go. -/
def nsPerSecond : Int := 1000000000

/-- The error outcomes `Ask` and `Connect` can surface (src/conn.go):
`closeErr` is the `CloseError{Code: -1, error: ErrWrite}` of line 826,
`writeErr` is `ErrWrite`, `deadlineExceeded` is `context.DeadlineExceeded`. -/
inductive AskErr
  | closeErr
  | writeErr
  | deadlineExceeded
  deriving DecidableEq, Repr

/-- Outcome of the sequential entry portion of `Conn.Ask` (src/conn.go lines
819-849), i.e. everything before the blocking `select`: whether the call
returned early, with which error, and whether a waiter slot was registered
/ a frame was written before returning. -/
structure AskEarlyOut where
  stopped : Bool
  err : Option AskErr
  registered : Bool
  wrote : Bool
  deriving DecidableEq, Repr

/-- The entry portion of `Conn.Ask` (src/conn.go lines 819-849), translated
clause by clause: native-only mode returns a zero `Message` with a nil
error; a closed connection returns a `CloseError`; a non-nil context whose
deadline is more than one second before `now` returns
`context.DeadlineExceeded`; otherwise the waiter slot is registered and the
message written (`writeOk` is the result of `c.Write`), a failed write
returning `ErrWrite`.  `deadline = none` covers both a nil context and a
context without a deadline.  Times are in nanoseconds. -/
def Conn.askEarly (c : Conn) (deadline : Option Int) (now : Int)
    (writeOk : Bool) : AskEarlyOut :=
  if c.shouldHandleOnlyNativeMessages then
    { stopped := true, err := none, registered := false, wrote := false }
  else if c.IsClosed then
    { stopped := true, err := some .closeErr, registered := false,
      wrote := false }
  else
    match deadline with
    | some d =>
      if d < now - nsPerSecond then
        { stopped := true, err := some .deadlineExceeded, registered := false,
          wrote := false }
      else if writeOk then
        { stopped := false, err := none, registered := true, wrote := true }
      else
        { stopped := true, err := some .writeErr, registered := true,
          wrote := false }
    | none =>
      if writeOk then
        { stopped := false, err := none, registered := true, wrote := true }
      else
        { stopped := true, err := some .writeErr, registered := true,
          wrote := false }

/-- The observable effects of the stateful `Conn` methods: dispatching a
payload to `HandlePayload`/`handleMessage`, writing raw bytes on the socket,
resolving the readiness latch, force-leaving the rooms of a namespace,
firing `OnNamespaceDisconnect` for a namespace, notifying the owning server,
closing the close-broadcast channel, and closing the underlying socket. -/
inductive Effect
  | dispatch (b : List Char)
  | wroteRaw (b : List Char)
  | unwait (err : Option String)
  | forceLeaveAll (ns : String)
  | fireDisconnect (ns : String)
  | notifyServer
  | closeChClosed
  | socketClose
  deriving DecidableEq, Repr

/-- The ACK frame tag `'M'` (src/conn.go line 181): client startup. -/
def ackBinary : Char := 'M'

/-- The ACK frame tag `'A'` (src/conn.go line 182): server assigns the ID. -/
def ackIDBinary : Char := 'A'

/-- The ACK frame tag `'K'` (src/conn.go line 183): reserved, its handling
is commented out in the source. -/
def ackOKBinary : Char := 'K'

/-- The ACK frame tag `'H'` (src/conn.go line 184): server rejects. -/
def ackNotOKBinary : Char := 'H'

/-- `Conn.handleQueue` (src/conn.go lines 288-297): dispatch every queued
frame in arrival order through `HandlePayload`, then truncate the queue. -/
def Conn.handleQueue (c : Conn) : Conn × List Effect :=
  ({ c with queue := [] }, c.queue.map Effect.dispatch)

/-- `Conn.handleACK` (src/conn.go lines 240-286) on one inbound frame,
split as first byte `hd` and remainder `tl` (the source indexes `b[0]` and
slices `b[1:]`).  `readiness` is the value `c.readiness.wait()` yields in
the `'M'` branch (`none` = resolved with success, modelled from the spec's
readiness latch; the latch itself lives outside `src/`).  `writeOk` is the
socket-level success of `c.write`.  Returns (continue?, new state, effects).
Note: the `'A'` branch sets `acknowledged` and resolves readiness but does
NOT drain the queue (the `c.handleQueue()` call there is commented out in
the source); the `'K'` tag falls into the default branch and is queued. -/
def Conn.handleACK (c : Conn) (readiness : Option String) (writeOk : Bool)
    (hd : Char) (tl : List Char) : Bool × Conn × List Effect :=
  if hd = ackBinary then
    match readiness with
    | some e =>
      (false, c, [.wroteRaw (ackNotOKBinary :: e.data)])
    | none =>
      let c1 := { c with acknowledged := true }
      let drained := c1.handleQueue
      (writeOk, drained.1, drained.2 ++ [.wroteRaw (ackIDBinary :: c.id.data)])
  else if hd = ackIDBinary then
    (true, { c with id := String.mk tl, acknowledged := true },
      [.unwait none])
  else if hd = ackNotOKBinary then
    (false, c, [.unwait (some (String.mk tl))])
  else
    (true, { c with queue := c.queue ++ [hd :: tl] }, [])

/-- The reader loop `Conn.startReader` (src/conn.go lines 209-237) run over
a finite list of frames delivered by `socket.ReadData` (read errors and the
deferred `Close` are modelled separately).  Zero-length frames are skipped
(`continue`); while unacknowledged, non-empty frames are fed to
`handleACK`, which may terminate the loop; once acknowledged, frames go to
`HandlePayload`.  Returns the final state, the effect trace, and the list
of frames that were actually passed to `handleACK`. -/
def Conn.startReader (c : Conn) (readiness : Option String) (writeOk : Bool) :
    List (List Char) → Conn × List Effect × List (List Char)
  | [] => (c, [], [])
  | [] :: rest => c.startReader readiness writeOk rest
  | (hd :: tl) :: rest =>
    if c.acknowledged then
      let r := Conn.startReader c readiness writeOk rest
      (r.1, .dispatch (hd :: tl) :: r.2.1, r.2.2)
    else
      let h := c.handleACK readiness writeOk hd tl
      if h.1 then
        let r := Conn.startReader h.2.1 readiness writeOk rest
        (r.1, h.2.2 ++ r.2.1, (hd :: tl) :: r.2.2)
      else
        (h.2.1, h.2.2, [hd :: tl])

/-- `syncWaitDur` (src/conn.go line 376): 15 ms in nanoseconds. -/
def syncWaitDur : Int := 15000000

/-- `maxSyncWaitDur` (src/conn.go line 380): 10 s in nanoseconds. -/
def maxSyncWaitDur : Int := 10000000000

/-- Result of the server-side ack-wait loop inside `Conn.Connect`. -/
inductive ConnectRes
  | acked
  | errWrite
  | deadlineExceeded
  deriving DecidableEq, Repr

/-- The server-side ack-wait loop of `Conn.Connect` (src/conn.go lines
395-414), iterated for at most `fuel` rounds.  `acked i` / `closed i` give
the values of `c.isAcknowledged()` / `c.IsClosed()` as observed at loop
iteration `i` (the environment).  The body follows the source exactly: the
loop runs while not acknowledged; after the sleep the source executes
`t = -syncWaitDur` (an assignment, not a decrement), then returns `ErrWrite`
if `t <= maxSyncWaitDur/2` and the connection is closed, and returns
`context.DeadlineExceeded` if `t == 0` (after one more closed check).
`none` means the loop had not returned after `fuel` iterations. -/
def connectPoll (acked closed : Nat → Bool) :
    Nat → Nat → Int → Option ConnectRes
  | 0, _, _ => none
  | fuel + 1, i, _t =>
    if acked i then some .acked
    else
      let t' : Int := -syncWaitDur
      if t' ≤ maxSyncWaitDur / 2 ∧ closed i then some .errWrite
      else if t' = 0 then
        (if closed i then some .errWrite else some .deadlineExceeded)
      else connectPoll acked closed fuel (i + 1) t'

/-- `Conn.Close` (src/conn.go lines 869-902).  The compare-and-swap on the
close flag is the leading `closed` test (a no-op second call returns the
state unchanged with no effects).  On the first call, unless in native-only
mode, every NS-table entry has its rooms force-left and its
`OnNamespaceDisconnect` fired and is deleted, and the waiter registry is
cleared; then `acknowledged` is reset, the server is notified (server side
only, asynchronously), the close channel is closed and the socket closed. -/
def Conn.Close (c : Conn) : Conn × List Effect :=
  if c.closed then (c, [])
  else
    let teardown :
        (List (String × List String) × List String) × List Effect :=
      if c.shouldHandleOnlyNativeMessages then
        ((c.connectedNamespaces, c.waitingMessages), [])
      else
        (([], []),
          c.connectedNamespaces.flatMap
            (fun p => [Effect.forceLeaveAll p.1, Effect.fireDisconnect p.1]))
    ({ c with
        connectedNamespaces := teardown.1.1,
        waitingMessages := teardown.1.2,
        acknowledged := false,
        closed := true },
      teardown.2
        ++ (if c.IsClient then [] else [Effect.notifyServer])
        ++ [.closeChClosed, .socketClose])

/-- `n` successive calls to `Conn.Close`, with the concatenated effects. -/
def Conn.closeN (c : Conn) : Nat → Conn × List Effect
  | 0 => (c, [])
  | n + 1 =>
    let first := c.Close
    let rest := first.1.closeN n
    (rest.1, first.2 ++ rest.2)

/-- Outcomes of the blocking `select` of `Conn.Ask` (src/conn.go lines
851-863): the matched reply was delivered on the slot channel; the context
fired and the connection was open (`ctx.Err()`); the context fired and the
connection was closed (`ErrWrite`). -/
inductive AskOutcome
  | reply
  | ctxError
  | writeError
  deriving DecidableEq, Repr

/-- State of one blocked `Ask` call together with the per-connection waiter
registry (`c.waitingMessages`) and the close flag: `registry` is the set of
registered wait-token keys, `outcome` is `none` while the observed `Ask` is
still blocked in its `select`. -/
structure AskSys where
  registry : List String
  closed : Bool
  outcome : Option AskOutcome
  deriving DecidableEq, Repr

/-- The transitions that can affect a blocked `Ask` waiting on token `tok`
under a context that can (`ctxFire = true`) or can never (`ctxFire = false`)
become done.  Each constructor is read off src/conn.go:
* `deliver`: `handleMessage` (lines 324-332) finds `tok` in the registry and
  sends the reply; the `Ask` receives it and deletes the entry (lines
  857-860).
* `deliverOther`: a reply for some other live token is delivered and that
  `Ask` removes its own entry.
* `registerOther`: another `Ask` on an open connection registers a fresh
  token (lines 841-844); wait-token generation never reuses a live or past
  token (spec: wait-token uniqueness), hence `t ≠ tok`.
* `close`: `Conn.Close` (lines 884-888) clears every registry entry; the
  blocked `select` itself is not signalled.
* `ctxDone`: the context fires (lines 852-856): the `Ask` returns `ErrWrite`
  if the connection is closed, else the context's error; the registry entry
  is NOT removed on this path. -/
inductive AskStep (tok : String) (ctxFire : Bool) : AskSys → AskSys → Prop
  | deliver (s : AskSys) :
      s.outcome = none → tok ∈ s.registry →
      AskStep tok ctxFire s ⟨s.registry.erase tok, s.closed, some .reply⟩
  | deliverOther (s : AskSys) (t : String) :
      t ≠ tok → t ∈ s.registry →
      AskStep tok ctxFire s ⟨s.registry.erase t, s.closed, s.outcome⟩
  | registerOther (s : AskSys) (t : String) :
      t ≠ tok → s.closed = false → t ∉ s.registry →
      AskStep tok ctxFire s ⟨t :: s.registry, s.closed, s.outcome⟩
  | close (s : AskSys) :
      s.closed = false →
      AskStep tok ctxFire s ⟨[], true, s.outcome⟩
  | ctxDone (s : AskSys) :
      ctxFire = true → s.outcome = none →
      AskStep tok ctxFire s
        ⟨s.registry, s.closed,
          some (if s.closed then .writeError else .ctxError)⟩

/-- Reachability in the `Ask` transition system. -/
def AskReach (tok : String) (ctxFire : Bool) : AskSys → AskSys → Prop :=
  Relation.ReflTransGen (AskStep tok ctxFire)

/-- A blocked `Ask` whose token is gone from the registry and whose context
cannot fire: both wake-up sources of the `select` are disabled. -/
def AskBlocked (tok : String) (s : AskSys) : Prop :=
  s.outcome = none ∧ tok ∉ s.registry

/-- Concrete client-side pre-ACK run: an application frame `"xy"` arrives
before acknowledgement (queued by `handleACK`), then the server's
`'A' ++ "id"` frame arrives.  Final state paired with the effect trace. -/
def clientPreAckRun : Conn × List Effect :=
  let h1 := ({} : Conn).handleACK none true 'x' ['y']
  let h2 := h1.2.1.handleACK none true 'A' ['i', 'd']
  (h2.2.1, h1.2.2 ++ h2.2.2)

/-- Concrete native-only connection as built by `newConn` (src/conn.go lines
105-119): the empty namespace is pre-installed in the NS-table and
`shouldHandleOnlyNativeMessages` is set. -/
def nativeOnlyConn : Conn :=
  { shouldHandleOnlyNativeMessages := true,
    acknowledged := true,
    connectedNamespaces := [("", [])] }

/- ===================== theorems ===================== -/

theorem askStep_blocked {tok : String} {s s' : AskSys}
    (h : AskBlocked tok s) (st : AskStep tok false s s') : AskBlocked tok s' := by
  cases st with
  | deliver hout hmem => exact absurd hmem h.2
  | deliverOther t hne hmem =>
    exact ⟨h.1, fun hm => h.2 (List.mem_of_mem_erase hm)⟩
  | registerOther t hne hcl hnm =>
    refine ⟨h.1, fun hm => ?_⟩
    rcases List.mem_cons.mp hm with h1 | h1
    · exact hne h1.symm
    · exact h.2 h1
  | close hcl => exact ⟨h.1, by simp⟩
  | ctxDone hcf hout => exact absurd hcf (by simp)

theorem askReach_blocked {tok : String} {s s' : AskSys}
    (h : AskBlocked tok s)
    (r : Relation.ReflTransGen (AskStep tok false) s s') : AskBlocked tok s' := by
  induction r with
  | refl => exact h
  | tail _ st ih => exact askStep_blocked ih st

/-- **C1.** The claim fails on the code: `Ask`'s `select` (src/conn.go lines
851-863) has no close-channel case, and `Close` only deletes the waiter
entries.  Concretely, with the single token `"w1"` registered and a context
that can never fire (e.g. a nil context, turned into `context.TODO()`),
the `Close` transition is enabled, and from the post-close state every
reachable state still has the `Ask` blocked: the call never terminates with
any of the three claimed outcomes. -/
theorem ask_pending_at_close_blocked_forever :
    AskStep "w1" false ⟨["w1"], false, none⟩ ⟨[], true, none⟩ ∧
    ∀ s : AskSys, AskReach "w1" false ⟨[], true, none⟩ s → s.outcome = none := by
  refine ⟨AskStep.close _ rfl, fun s r => ?_⟩
  exact (askReach_blocked ⟨rfl, by simp⟩ r).1

/-- **C1 (amended).** Provided the `Ask`'s context can fire (it has a
deadline or can be cancelled), the blocked `select` is never stuck: from any
pending state a completing transition is enabled, and it completes with the
matched reply, the context's error (connection open), or a write error
(connection closed).  Under a context that can never fire, an `Ask` that is
pending when `Close` runs remains blocked forever. -/
theorem ask_fireable_context_never_stuck (tok : String) (s : AskSys)
    (h : s.outcome = none) :
    ∃ s', AskStep tok true s s' ∧
      (s'.outcome = some .reply ∨ s'.outcome = some .ctxError ∨
        s'.outcome = some .writeError) := by
  refine ⟨_, AskStep.ctxDone s rfl h, ?_⟩
  cases hc : s.closed
  · right; left; simp [hc]
  · right; right; simp [hc]

theorem ask_fireable_context_never_stuck_witness :
    (⟨[], false, none⟩ : AskSys).outcome = none ∧
    ∃ s', AskStep "w2" true ⟨[], false, none⟩ s' ∧
      (s'.outcome = some .reply ∨ s'.outcome = some .ctxError ∨
        s'.outcome = some .writeError) :=
  ⟨rfl, ask_fireable_context_never_stuck "w2" ⟨[], false, none⟩ rfl⟩

/-- **C3.** The close half of the claim fails on the code: closing with the
token `"w3"` registered does remove the entry (the registry is cleared), but
the originating `Ask` caller never receives a write/close error — under a
context that cannot fire, no reachable state ever carries a `writeError`
outcome (the caller stays blocked, cf. C1). -/
theorem waiter_close_abandons_without_error :
    AskStep "w3" false ⟨["w3"], false, none⟩ ⟨[], true, none⟩ ∧
    (⟨[], true, none⟩ : AskSys).registry = [] ∧
    ∀ s : AskSys, AskReach "w3" false ⟨[], true, none⟩ s →
      s.outcome ≠ some .writeError := by
  refine ⟨AskStep.close _ rfl, rfl, fun s r => ?_⟩
  have h := (askReach_blocked ⟨rfl, by simp⟩ r).1
  simp [h]

/-- **C3 (amended).** Registry lifecycle as the code implements it: (1) a
settled `Ask` outcome never changes, so the slot observes at most one
delivery; (2) a delivery settles the slot with the reply and removes the
token from the (duplicate-free) registry; (3) the transition that closes the
connection clears the whole registry (the entry is abandoned); (4) a caller
still pending on a closed connection is unblocked with a write error only
when its context fires — not by `Close` itself. -/
theorem waiter_registry_lifecycle :
    (∀ (tok : String) (cf : Bool) (s s' : AskSys) (o : AskOutcome),
      AskStep tok cf s s' → s.outcome = some o → s'.outcome = some o) ∧
    (∀ (tok : String) (cf : Bool) (s s' : AskSys),
      AskStep tok cf s s' → s.registry.Nodup → s.outcome = none →
      s'.outcome = some .reply → tok ∉ s'.registry) ∧
    (∀ (tok : String) (cf : Bool) (s s' : AskSys),
      AskStep tok cf s s' → s.closed = false → s'.closed = true →
      s'.registry = []) ∧
    (∀ (tok : String) (s : AskSys),
      s.closed = true → s.outcome = none →
      ∃ s', AskStep tok true s s' ∧ s'.outcome = some .writeError) := by
  refine ⟨?_, ?_, ?_, ?_⟩
  · intro tok cf s s' o st ho
    cases st with
    | deliver h1 h2 => simp [ho] at h1
    | deliverOther t h1 h2 => exact ho
    | registerOther t h1 h2 h3 => exact ho
    | close h1 => exact ho
    | ctxDone h1 h2 => simp [ho] at h2
  · intro tok cf s s' st hnd ho hr
    cases st with
    | deliver h1 h2 => exact hnd.not_mem_erase
    | deliverOther t h1 h2 => simp [ho] at hr
    | registerOther t h1 h2 h3 => simp [ho] at hr
    | close h1 => simp [ho] at hr
    | ctxDone h1 h2 =>
      by_cases hc : s.closed = true <;> simp [hc] at hr
  · intro tok cf s s' st h1 h2
    cases st with
    | deliver ha hb => simp [h1] at h2
    | deliverOther t ha hb => simp [h1] at h2
    | registerOther t ha hb hc => simp [h1] at h2
    | close ha => rfl
    | ctxDone ha hb => simp [h1] at h2
  · intro tok s h1 h2
    exact ⟨_, AskStep.ctxDone s rfl h2, by simp [h1]⟩

theorem waiter_registry_lifecycle_witness :
    ((⟨["b"].erase "b", false, some AskOutcome.reply⟩ : AskSys).outcome
        = some AskOutcome.reply) ∧
    ("a" ∉ (⟨["a"].erase "a", false, some AskOutcome.reply⟩ : AskSys).registry) ∧
    ((⟨[], true, (none : Option AskOutcome)⟩ : AskSys).registry = []) ∧
    (∃ s', AskStep "d" true ⟨[], true, none⟩ s' ∧
      s'.outcome = some AskOutcome.writeError) := by
  refine ⟨?_, ?_, ?_, ?_⟩
  · exact waiter_registry_lifecycle.1 "a" false ⟨["b"], false, some .reply⟩ _
      .reply (AskStep.deliverOther _ "b" (by decide) (by simp)) rfl
  · exact waiter_registry_lifecycle.2.1 "a" false ⟨["a"], false, none⟩ _
      (AskStep.deliver _ rfl (by simp)) (by simp) rfl rfl
  · exact waiter_registry_lifecycle.2.2.1 "x" false ⟨["c"], false, none⟩ _
      (AskStep.close _ rfl) rfl rfl
  · exact waiter_registry_lifecycle.2.2.2 "d" ⟨[], true, none⟩ rfl rfl

/-- **C2.** The claim fails on the code: inside `Conn.Connect` the loop
variable is assigned `t = -syncWaitDur` (src/conn.go line 398) instead of
being decremented, so `t` is `-15 ms` on every iteration, the `t == 0`
branch is unreachable and `context.DeadlineExceeded` is never returned —
for any environment, any iteration count and any starting value of `t`.
In particular, on a connection that is never acknowledged and never closed
the loop runs forever (returns nothing within any bound), instead of
stopping at the ~10 s cap. -/
theorem connect_ack_poll_never_deadline :
    (∀ (acked closed : Nat → Bool) (fuel i : Nat) (t : Int),
      connectPoll acked closed fuel i t ≠ some ConnectRes.deadlineExceeded) ∧
    (∀ (fuel i : Nat) (t : Int),
      connectPoll (fun _ => false) (fun _ => false) fuel i t = none) := by
  constructor
  · intro acked closed fuel
    induction fuel with
    | zero => intro i t; simp [connectPoll]
    | succ n ih =>
      intro i t
      rw [connectPoll]
      by_cases ha : acked i = true
      · simp [ha]
      · by_cases hc : closed i = true
        · simp [ha, hc, syncWaitDur, maxSyncWaitDur]
        · simpa [ha, hc, syncWaitDur, maxSyncWaitDur] using ih (i + 1) (-syncWaitDur)
  · intro fuel
    induction fuel with
    | zero => intro i t; simp [connectPoll]
    | succ n ih =>
      intro i t
      rw [connectPoll]
      simpa [syncWaitDur, maxSyncWaitDur] using ih (i + 1) (-syncWaitDur)

theorem Conn.Close_sets_closed (c : Conn) : (c.Close).1.closed = true := by
  by_cases h : c.closed = true <;> simp [Conn.Close, h]

theorem Conn.closeN_of_closed (c : Conn) (h : c.closed = true) :
    ∀ n, c.closeN n = (c, []) := by
  intro n
  induction n with
  | zero => rfl
  | succ n ih => simp [Conn.closeN, Conn.Close, h, ih]

theorem Conn.closeN_succ (c : Conn) (n : Nat) :
    c.closeN (n + 1) = ((c.Close).1, (c.Close).2) := by
  simp [Conn.closeN, Conn.closeN_of_closed _ (Conn.Close_sets_closed c) n]

theorem count_teardown_fireDisconnect (l : List (String × List String))
    (N : String) :
    (l.flatMap
        (fun p => [Effect.forceLeaveAll p.1, Effect.fireDisconnect p.1])).count
      (Effect.fireDisconnect N) = (l.map Prod.fst).count N := by
  induction l with
  | nil => rfl
  | cons p l ih =>
    simp [List.count_cons, ih]

theorem count_teardown_socketClose (l : List (String × List String)) :
    (l.flatMap
        (fun p => [Effect.forceLeaveAll p.1, Effect.fireDisconnect p.1])).count
      Effect.socketClose = 0 := by
  induction l with
  | nil => rfl
  | cons p l ih => simp [List.count_cons, ih]

/-- **C4 (amended).** `Close` is idempotent: the compare-and-swap means the
teardown body runs only on the first call, so any number of calls is
equivalent to one.  On a non-native-only connection, `OnNamespaceDisconnect`
fires exactly once per namespace in the NS-table at that moment; on a
native-only connection the disconnect loop is skipped entirely (the spec's
§4.8 "unless native-only" carve-out, which the claim omits).  The socket is
closed exactly once, and every call after the first changes nothing and
emits nothing. -/
theorem close_idempotent_teardown_once (c : Conn) (n : Nat) (N : String)
    (hopen : c.closed = false) :
    (c.shouldHandleOnlyNativeMessages = false →
      (c.connectedNamespaces.map Prod.fst).Nodup →
      N ∈ c.connectedNamespaces.map Prod.fst →
      (c.closeN (n + 1)).2.count (Effect.fireDisconnect N) = 1) ∧
    (c.shouldHandleOnlyNativeMessages = true →
      (c.closeN (n + 1)).2 =
        (if c.IsClient then [] else [Effect.notifyServer])
          ++ [Effect.closeChClosed, Effect.socketClose]) ∧
    (c.closeN (n + 1)).2.count Effect.socketClose = 1 ∧
    (c.closeN (n + 1)).1 = (c.Close).1 ∧
    (c.closeN (n + 1)).2 = (c.Close).2 := by
  rw [Conn.closeN_succ]
  refine ⟨?_, ?_, ?_, rfl, rfl⟩
  · intro hnat hnd hmem
    simp only [Conn.Close, hopen, hnat]
    simp [List.count_append, count_teardown_fireDisconnect,
      List.count_eq_one_of_mem hnd hmem, List.count_cons]
    by_cases hcl : c.IsClient = true <;> simp [hcl, List.count_cons]
  · intro hnat
    simp [Conn.Close, hopen, hnat]
  · simp only [Conn.Close, hopen]
    by_cases hnat : c.shouldHandleOnlyNativeMessages = true
    · simp [hnat, List.count_cons]
      by_cases hcl : c.IsClient = true <;> simp [hcl, List.count_cons]
    · simp [hnat, List.count_append, count_teardown_socketClose,
        List.count_cons]
      by_cases hcl : c.IsClient = true <;> simp [hcl, List.count_cons]

theorem close_idempotent_teardown_once_witness :
    (({ connectedNamespaces := [("chat", ["r"])] } : Conn).closed = false) ∧
    (({ connectedNamespaces := [("chat", ["r"])] } : Conn).closeN 3).2.count
        (Effect.fireDisconnect "chat") = 1 ∧
    (({ connectedNamespaces := [("chat", ["r"])] } : Conn).closeN 3).2.count
        Effect.socketClose = 1 := by
  have h := close_idempotent_teardown_once
    { connectedNamespaces := [("chat", ["r"])] } 2 "chat" rfl
  exact ⟨rfl, h.1 rfl (by simp) (by simp), h.2.2.1⟩

/-- **C4.** The claim as stated fails on the code: for a native-only
connection (`newConn` pre-installs the empty namespace in the NS-table and
sets `shouldHandleOnlyNativeMessages`), the first `Close` skips the
disconnect loop (src/conn.go line 871), so `OnNamespaceDisconnect` fires
zero times — not once — for the namespace `""` that was in the NS-table at
that moment, even though the socket is still closed once. -/
theorem close_native_only_skips_disconnects :
    "" ∈ nativeOnlyConn.connectedNamespaces.map Prod.fst ∧
    (nativeOnlyConn.Close).2.count (Effect.fireDisconnect "") = 0 ∧
    (nativeOnlyConn.Close).2.count Effect.socketClose = 1 := by
  refine ⟨by simp [nativeOnlyConn], by decide, by decide⟩

/-- **C5.** The claim fails on the code on the client side: a frame whose
first byte is none of `M A H` is queued while unacknowledged, but when the
client's `acknowledged` flips on the `'A'` frame, `handleACK` does NOT
drain the queue (the `c.handleQueue()` call in the `ackIDBinary` branch is
commented out, src/conn.go line 271): after queuing the frame `"xy"` and
then processing `'A' ++ "id"`, the connection is acknowledged yet the queue
still holds the frame and no dispatch of it was performed. -/
theorem client_ack_flip_leaves_queue :
    clientPreAckRun.1.acknowledged = true ∧
    clientPreAckRun.1.queue = [['x', 'y']] ∧
    clientPreAckRun.2.count (Effect.dispatch ['x', 'y']) = 0 := by
  refine ⟨by decide, by decide, by decide⟩

/-- **C5 (amended).** Pre-ack queue behaviour as the code implements it:
(1) while unacknowledged, a frame whose first byte is none of `M A H` is
appended to the queue and nothing is dispatched; (2) when `acknowledged`
flips on the server side — `'M'` received with the readiness latch resolved
successfully — every queued frame is dispatched exactly once, in arrival
order, and the queue is left empty; (3) when it flips on the client side —
`'A'` received — the queued frames are NOT dispatched and remain queued. -/
theorem preack_queue_behavior :
    (∀ (c : Conn) (r : Option String) (w : Bool) (hd : Char) (tl : List Char),
      hd ≠ ackBinary → hd ≠ ackIDBinary → hd ≠ ackNotOKBinary →
      (c.handleACK r w hd tl).2.1.queue = c.queue ++ [hd :: tl] ∧
      (c.handleACK r w hd tl).2.2 = []) ∧
    (∀ (c : Conn) (w : Bool) (tl : List Char),
      (c.handleACK none w ackBinary tl).2.1.acknowledged = true ∧
      (c.handleACK none w ackBinary tl).2.1.queue = [] ∧
      (c.handleACK none w ackBinary tl).2.2 =
        c.queue.map Effect.dispatch
          ++ [Effect.wroteRaw (ackIDBinary :: c.id.data)]) ∧
    (∀ (c : Conn) (r : Option String) (w : Bool) (tl : List Char),
      (c.handleACK r w ackIDBinary tl).2.1.acknowledged = true ∧
      (c.handleACK r w ackIDBinary tl).2.1.queue = c.queue ∧
      (c.handleACK r w ackIDBinary tl).2.2 = [Effect.unwait none]) := by
  refine ⟨?_, ?_, ?_⟩
  · intro c r w hd tl h1 h2 h3
    unfold Conn.handleACK
    rw [if_neg h1, if_neg h2, if_neg h3]
    exact ⟨rfl, rfl⟩
  · intro c w tl
    exact ⟨rfl, rfl, rfl⟩
  · intro c r w tl
    unfold Conn.handleACK
    rw [if_neg (by decide : ¬(ackIDBinary = ackBinary)), if_pos rfl]
    exact ⟨rfl, rfl, rfl⟩

theorem preack_queue_behavior_witness :
    ('x' ≠ ackBinary ∧ 'x' ≠ ackIDBinary ∧ 'x' ≠ ackNotOKBinary) ∧
    ((({} : Conn).handleACK none true 'x' ['y']).2.1.queue =
        ({} : Conn).queue ++ [['x', 'y']] ∧
      (({} : Conn).handleACK none true 'x' ['y']).2.2 = []) :=
  ⟨⟨by decide, by decide, by decide⟩,
    preack_queue_behavior.1 {} none true 'x' ['y']
      (by decide) (by decide) (by decide)⟩

/-- **C6.** The claim fails on the code for the native-only branch:
`Conn.Ask` on a connection in native-only mode returns a zero `Message` and
a NIL error (src/conn.go lines 820-823, with the source's own comment
"should panic or..."), not an error as the claim states — though indeed no
waiter is registered and nothing is written. -/
theorem ask_native_only_returns_nil_error :
    (Conn.askEarly { shouldHandleOnlyNativeMessages := true } none 0 true).stopped
        = true ∧
    (Conn.askEarly { shouldHandleOnlyNativeMessages := true } none 0 true).err
        = none ∧
    (Conn.askEarly { shouldHandleOnlyNativeMessages := true } none 0 true).registered
        = false ∧
    (Conn.askEarly { shouldHandleOnlyNativeMessages := true } none 0 true).wrote
        = false := by
  refine ⟨by decide, by decide, by decide, by decide⟩

/-- **C6 (amended).** `Ask` refuses to run in both cases, without
registering a waiter slot and without writing to the socket — but the two
refusals differ: native-only mode returns immediately with a zero message
and a nil error, while a closed connection returns a close/write error. -/
theorem ask_refusal_gates :
    (∀ (c : Conn) (dl : Option Int) (t : Int) (w : Bool),
      c.shouldHandleOnlyNativeMessages = true →
      c.askEarly dl t w =
        { stopped := true, err := none, registered := false, wrote := false }) ∧
    (∀ (c : Conn) (dl : Option Int) (t : Int) (w : Bool),
      c.shouldHandleOnlyNativeMessages = false → c.closed = true →
      c.askEarly dl t w =
        { stopped := true, err := some .closeErr, registered := false,
          wrote := false }) := by
  constructor
  · intro c dl t w h
    simp [Conn.askEarly, h]
  · intro c dl t w h1 h2
    simp [Conn.askEarly, Conn.IsClosed, h1, h2]

theorem ask_refusal_gates_witness :
    (({ shouldHandleOnlyNativeMessages := true } : Conn).askEarly none 5 true =
      { stopped := true, err := none, registered := false, wrote := false }) ∧
    (({ closed := true } : Conn).askEarly none 5 true =
      { stopped := true, err := some .closeErr, registered := false,
        wrote := false }) :=
  ⟨ask_refusal_gates.1 _ none 5 true rfl,
    ask_refusal_gates.2 _ none 5 true rfl rfl⟩

/-- **C7.** For every context carrying a deadline more than one second
before the current time (`deadline.Before(time.Now().Add(-1*time.Second))`,
src/conn.go lines 834-838), `Ask` on an open, non-native-only connection
(the earlier refusal gates of §4.6 step 1 not applying) returns
`context.DeadlineExceeded` immediately: no waiter slot is registered and
nothing is written to the socket. -/
theorem ask_past_deadline_early_return (c : Conn) (d now : Int) (w : Bool)
    (hn : c.shouldHandleOnlyNativeMessages = false) (hc : c.closed = false)
    (hd : d < now - nsPerSecond) :
    c.askEarly (some d) now w =
      { stopped := true, err := some .deadlineExceeded, registered := false,
        wrote := false } := by
  simp [Conn.askEarly, Conn.IsClosed, hn, hc, hd]

theorem ask_past_deadline_early_return_witness :
    (0 : Int) < 2 * nsPerSecond - nsPerSecond ∧
    ({} : Conn).askEarly (some 0) (2 * nsPerSecond) true =
      { stopped := true, err := some .deadlineExceeded, registered := false,
        wrote := false } :=
  ⟨by norm_num [nsPerSecond],
    ask_past_deadline_early_return {} 0 (2 * nsPerSecond) true rfl rfl
      (by norm_num [nsPerSecond])⟩

/-- **C8.** The claim fails on the code at the empty-ID edge: `Conn.Is`
(src/conn.go line 126) returns false for an empty `connID`, so on a client
whose own `id` is still `""` (it is only assigned during the ACK), a message
whose `FromExplicit` is `""` — equal to the connection's own ID — is NOT
suppressed: `canWrite` passes and `Write` hands the message to the
serializer. -/
theorem write_empty_own_id_not_suppressed :
    ({ id := "", connectedNamespaces := [("chat", [])] } : Conn).id =
      ({ Namespace := "chat", Event := "msg" } : Message).FromExplicit ∧
    Conn.canWrite { id := "", connectedNamespaces := [("chat", [])] }
      { Namespace := "chat", Event := "msg" } = true ∧
    (Conn.Write { id := "", connectedNamespaces := [("chat", [])] }
      { Namespace := "chat", Event := "msg" } true).2 ≠ none := by
  refine ⟨rfl, by decide, by decide⟩

/-- **C8 (amended).** Self-exclusion holds for every message whose
`FromExplicit` is non-empty and equals the connection's own ID (the
client-side `id` for clients, the server-side `serverConnID` for servers):
`canWrite` returns false and `Write` reports false with nothing handed to
the serializer. -/
theorem write_self_exclusion (c : Conn) (m : Message) (w : Bool)
    (hne : m.FromExplicit ≠ "")
    (hid : (if c.IsClient then c.id else c.serverConnID) = m.FromExplicit) :
    c.canWrite m = false ∧ c.Write m w = (false, none) := by
  have hIs : c.Is m.FromExplicit = true := by
    unfold Conn.Is
    rw [if_neg hne]
    by_cases hcl : c.IsClient = true
    · simp [hcl] at hid ⊢; exact hid
    · simp [hcl] at hid ⊢; exact hid
  have hcw : c.canWrite m = false := by
    unfold Conn.canWrite
    by_cases h1 : c.IsClosed = true
    · simp [h1]
    · by_cases h2 : c.nsRoomGate m = true
      · simp [h1, h2, hIs]
      · simp [h1, h2]
  refine ⟨hcw, ?_⟩
  unfold Conn.Write
  simp [hcw]

theorem write_self_exclusion_witness :
    ((({ Event := "msg", FromExplicit := "abc" } : Message).FromExplicit ≠ "") ∧
      Conn.canWrite { id := "abc" } { Event := "msg", FromExplicit := "abc" }
        = false ∧
      Conn.Write { id := "abc" } { Event := "msg", FromExplicit := "abc" } true
        = (false, none)) := by
  have h := write_self_exclusion { id := "abc" }
    { Event := "msg", FromExplicit := "abc" } true (by decide) (by decide)
  exact ⟨by decide, h.1, h.2⟩

/-- **C9.** The first-byte access of `handleACK` is always in range: the
reader loop (src/conn.go lines 217-236) skips zero-length reads with
`continue`, so every frame that reaches `handleACK` — over any input
stream, any initial state, any readiness result and any write outcome — is
non-empty. -/
theorem reader_feeds_handleACK_nonempty :
    ∀ (frames : List (List Char)) (c : Conn) (r : Option String) (w : Bool)
      (b : List Char), b ∈ (c.startReader r w frames).2.2 → b ≠ [] := by
  intro frames
  induction frames with
  | nil =>
    intro c r w b hb
    simp [Conn.startReader] at hb
  | cons f rest ih =>
    intro c r w b hb
    cases f with
    | nil => exact ih c r w b (by simpa [Conn.startReader] using hb)
    | cons hd tl =>
      rw [Conn.startReader] at hb
      by_cases hack : c.acknowledged = true
      · simp only [hack, if_pos] at hb
        exact ih _ r w b hb
      · simp only [hack] at hb
        by_cases hcont : (c.handleACK r w hd tl).1 = true
        · simp only [hcont, if_pos, if_neg, ite_true, ite_false] at hb
          rcases List.mem_cons.mp (by simpa using hb) with h1 | h1
          · subst h1; simp
          · exact ih _ r w b h1
        · simp only [hcont] at hb
          have : b = hd :: tl := by simpa using hb
          subst this; simp

theorem reader_feeds_handleACK_nonempty_witness :
    ['x'] ∈ (Conn.startReader {} none true [[], ['x'], ['M']]).2.2 ∧
    ['x'] ≠ [] :=
  ⟨by decide,
    reader_feeds_handleACK_nonempty [[], ['x'], ['M']] {} none true ['x']
      (by decide)⟩

/-- **C10.** Every message that `Write` actually sends has its
`FromExplicit` cleared to the empty string before serialization
(src/conn.go line 793), and every other field is handed to the serializer
exactly as given by the caller. -/
theorem write_clears_fromExplicit (c : Conn) (m : Message) (w : Bool)
    (h : c.canWrite m = true) :
    (c.Write m w).2 = some { m with FromExplicit := "" } ∧
    ∀ m', (c.Write m w).2 = some m' →
      m'.FromExplicit = "" ∧ m'.Namespace = m.Namespace ∧
      m'.Event = m.Event ∧ m'.Room = m.Room ∧ m'.Body = m.Body ∧
      m'.wait = m.wait ∧ m'.Err = m.Err ∧ m'.SetBinary = m.SetBinary ∧
      m'.IsLocal = m.IsLocal ∧ m'.IsForced = m.IsForced ∧
      m'.IsNative = m.IsNative ∧ m'.isNoOp = m.isNoOp ∧
      m'.isInvalid = m.isInvalid ∧ m'.locked = m.locked := by
  have h1 : (c.Write m w).2 = some { m with FromExplicit := "" } := by
    unfold Conn.Write
    simp [h]
  refine ⟨h1, ?_⟩
  intro m' hm'
  rw [h1] at hm'
  injection hm' with h2
  subst h2
  simp

theorem write_clears_fromExplicit_witness :
    Conn.canWrite { connectedNamespaces := [("chat", [])] }
      { Namespace := "chat", Event := "msg", FromExplicit := "zz" } = true ∧
    (Conn.Write { connectedNamespaces := [("chat", [])] }
        { Namespace := "chat", Event := "msg", FromExplicit := "zz" } true).2 =
      some { ({ Namespace := "chat", Event := "msg", FromExplicit := "zz" }
          : Message) with FromExplicit := "" } :=
  ⟨by decide,
    (write_clears_fromExplicit { connectedNamespaces := [("chat", [])] }
      { Namespace := "chat", Event := "msg", FromExplicit := "zz" } true
      (by decide)).1⟩

end NeffosModel
